import Mathlib

/-!
Shallow embedding of the request-lifecycle coordination subsystem of the
AI-Pipeline repository (bug-report → triage → ticket formatting → GitHub
issue pipeline), covering:

* `src/models.py` — `TicketStatus`, `RequestState`;
* `src/state_manager.py` — the Redis-backed `StateManager` (modelled as an
  association list keyed by `request_id`; wall-clock `datetime.now()` is an
  explicit `Nat` parameter passed to every write);
* `src/agents/coordinator_agent.py` — the in-memory `active_requests`
  cache, `submit_bug_report`, `_process_status_update`,
  `_handle_request_completion`, `_monitor_timeouts` / `_handle_timeout` /
  `_cleanup_old_requests` (one sweep iteration), `get_request_status`;
* `src/agents/base_agent.py` — `send_status_update`,
  `log_processing_start`, `log_processing_complete`, `handle_error`;
* `src/agents/triage_agent.py` — `process_message`;
* `src/kafka_utils.py` — `KafkaProducerManager.send_message` and the
  per-message error confinement of `KafkaConsumerManager.start_consuming`.

External effects (Kafka publish outcomes, the LLM analysis result) are
explicit parameters; emitted status events are returned as lists.
-/

namespace AIPipeline

/-- `TicketStatus` enum from `src/models.py` (values "pending", "triaged",
"in_progress", "created", "failed"). Note the enum has no SUBMITTED member. -/
inductive TicketStatus where
  | pending
  | triaged
  | in_progress
  | created
  | failed
deriving DecidableEq, Repr

/-- The string value of each `TicketStatus` member (`str, Enum` in Python). -/
def TicketStatus.value : TicketStatus → String
  | .pending => "pending"
  | .triaged => "triaged"
  | .in_progress => "in_progress"
  | .created => "created"
  | .failed => "failed"

/-- `RequestState` from `src/models.py`. Timestamps are `Nat` seconds; the
`progress` dict maps a step name to its recording timestamp (the free-form
`data` payload carried alongside in Python is not needed by any claim and is
omitted). -/
structure RequestState where
  request_id : String
  bug_report_id : String
  status : TicketStatus
  current_step : String
  progress : List (String × Nat) := []
  error_message : Option String := none
  github_issue_number : Option Nat := none
  github_issue_url : Option String := none
  created_at : Nat
  updated_at : Nat
deriving DecidableEq, Repr

/-- The durable Request State Store (Redis keys `request:<request_id>`),
modelled as an association list keyed by request_id with last-write-wins
`storeSet`. -/
def Store := List (String × RequestState)
deriving DecidableEq

instance : Membership (String × RequestState) Store :=
  inferInstanceAs (Membership _ (List _))

/-- Redis GET of `request:<rid>` (`StateManager.get_request_state`). -/
def storeGet (s : Store) (rid : String) : Option RequestState :=
  match List.find? (fun p => p.1 = rid) s with
  | some p => some p.2
  | none => none

/-- Redis SETEX of `request:<rid>` (last write wins per key). -/
def storeSet (s : Store) (rid : String) (st : RequestState) : Store :=
  (rid, st) :: List.filter (fun p => ¬ p.1 = rid) s

/-- Redis DELETE of `request:<rid>`. -/
def storeDelete (s : Store) (rid : String) : Store :=
  List.filter (fun p => ¬ p.1 = rid) s

/-- `Config.TIMEOUT_SECONDS` from `src/config.py`. -/
def TIMEOUT_SECONDS : Nat := 300

/-- `StateManager.create_request_state`: unconditionally writes a fresh
record with status PENDING (overwriting any existing record for the same
key), both timestamps the current time `t`. Returns the new store and the
created record. -/
def create_request_state (s : Store) (rid bid initial_step : String) (t : Nat) :
    Store × RequestState :=
  let st : RequestState :=
    { request_id := rid
      bug_report_id := bid
      status := TicketStatus.pending
      current_step := initial_step
      created_at := t
      updated_at := t }
  (storeSet s rid st, st)

/-- The keyword updates accepted by `StateManager.update_request_state`
(`**updates` applied via `setattr`); only the fields actually passed by some
caller in the repository are representable. `none` means "not passed". -/
structure StateUpdates where
  status : Option TicketStatus := none
  current_step : Option String := none
  error_message : Option String := none
  github_issue_number : Option Nat := none
  github_issue_url : Option String := none
deriving DecidableEq, Repr

/-- Application of `**updates` to a record (`setattr` per passed field),
followed by `state.updated_at = datetime.now()`. -/
def applyUpdates (st : RequestState) (u : StateUpdates) (t : Nat) : RequestState :=
  { st with
    status := u.status.getD st.status
    current_step := u.current_step.getD st.current_step
    error_message := match u.error_message with
      | some m => some m
      | none => st.error_message
    github_issue_number := match u.github_issue_number with
      | some n => some n
      | none => st.github_issue_number
    github_issue_url := match u.github_issue_url with
      | some url => some url
      | none => st.github_issue_url
    updated_at := t }

/-- `StateManager.update_request_state`: read–modify–write; returns `false`
(store unchanged) when the record is absent. -/
def update_request_state (s : Store) (rid : String) (u : StateUpdates) (t : Nat) :
    Store × Bool :=
  match storeGet s rid with
  | none => (s, false)
  | some st => (storeSet s rid (applyUpdates st u t), true)

/-- `StateManager.update_progress`: appends/overwrites the progress entry for
`step`, sets `current_step` and `updated_at`; `false` when absent. -/
def update_progress (s : Store) (rid step : String) (t : Nat) : Store × Bool :=
  match storeGet s rid with
  | none => (s, false)
  | some st =>
      let st' := { st with
        progress := (step, t) :: List.filter (fun p => ¬ p.1 = step) st.progress
        current_step := step
        updated_at := t }
      (storeSet s rid st', true)

/-- `StateManager.set_error`: `update_request_state(status=FAILED,
error_message=error_message)`. -/
def set_error (s : Store) (rid msg : String) (t : Nat) : Store × Bool :=
  update_request_state s rid
    { status := some TicketStatus.failed, error_message := some msg } t

/-- `StateManager.mark_completed`: `update_request_state(status=CREATED,
github_issue_number=…, github_issue_url=…, current_step="completed")`. -/
def mark_completed (s : Store) (rid : String) (n : Nat) (url : String) (t : Nat) :
    Store × Bool :=
  update_request_state s rid
    { status := some TicketStatus.created
      github_issue_number := some n
      github_issue_url := some url
      current_step := some "completed" } t

/-! ## Kafka producer (`src/kafka_utils.py`, `KafkaProducerManager`) -/

/-- The observable behaviour of the underlying `confluent_kafka.Producer`
during one `send_message` call: whether `json.dumps`/`produce`/`flush`
raised, what the delivery callback reported (if it was invoked before the
10-second `flush` window closed), and whether the broker ack arrived within
that window. -/
structure TransportBehavior where
  raises : Bool
  deliveryErr : Option String := none
  ackedInFlushWindow : Bool := true
deriving DecidableEq, Repr

/-- `KafkaProducerManager.send_message` (lines 23–46): serialize, `produce`
with `_delivery_callback`, `flush(timeout=10)`, then `return True`; the
`except` branch returns `False`. The callback (lines 48–55) only logs — its
error report and the flush timeout do not influence the return value, which
depends solely on whether an exception was raised. -/
def send_message (b : TransportBehavior) : Bool :=
  if b.raises then false else true

/-! ## Status events (`BaseAgent.send_status_update`) -/

/-- The metadata map attached to status events; only the keys the repository
actually writes are representable (`_handle_timeout`,
`_handle_request_completion`, `GitHubAPIAgent.process_message`). -/
structure Metadata where
  timeout : Option Bool := none
  last_status : Option String := none
  last_agent : Option String := none
  github_issue_number : Option Nat := none
  github_issue_url : Option String := none
  processing_time_seconds : Option Nat := none
deriving DecidableEq, Repr

/-- A status event as published by `BaseAgent.send_status_update` to the
shared `status-updates` topic. -/
structure StatusMessage where
  request_id : String
  status : String
  message : String
  agent : String
  metadata : Metadata := {}
deriving DecidableEq, Repr

/-- `BaseAgent.send_status_update`: builds the event dict. (The Kafka publish
of the event and its swallowed exceptions have no bearing on any claim; the
built event is what appears on the status topic when the publish succeeds.) -/
def send_status_update (agent rid status msg : String) (md : Metadata := {}) :
    StatusMessage :=
  { request_id := rid, status := status, message := msg, agent := agent
    metadata := md }

/-- `BaseAgent.log_processing_start`: emits a "processing" status event. -/
def log_processing_start (agent rid step : String) : StatusMessage :=
  send_status_update agent rid "processing" ("Starting " ++ step)

/-- `BaseAgent.log_processing_complete`: emits a "completed" status event. -/
def log_processing_complete (agent rid step : String) : StatusMessage :=
  send_status_update agent rid "completed" ("Completed " ++ step)

/-- The status strings actually passed to `send_status_update` anywhere in
the repository: "submitted" (coordinator submit), "processing"
(`log_processing_start`), "completed" (`log_processing_complete`, the
GitHub agent's final event, the coordinator's completion re-notification),
"failed" (`handle_error`, the timeout monitor). -/
def emittedStatusSet : List String :=
  ["submitted", "processing", "completed", "failed"]

/-- Modelled from the spec (for comparison with the code's behaviour): the
status vocabulary §6 claims for status events, in the lowercase value form
the `TicketStatus` enum uses — SUBMITTED, PENDING, TRIAGED, IN_PROGRESS,
CREATED, FAILED. -/
def specClaimedStatusSet : List String :=
  ["submitted", "pending", "triaged", "in_progress", "created", "failed"]

/-! ## Coordinator in-memory cache (`CoordinatorAgent.active_requests`) -/

/-- One entry of `CoordinatorAgent.active_requests`:
`{bug_report_id, status, created_at, last_updated}` plus the `last_agent`
key added by `_process_status_update`. The `status` field holds the raw
status string of the last event (initially `"submitted"`). -/
structure CacheEntry where
  bug_report_id : String
  status : String
  created_at : Nat
  last_updated : Nat
  last_agent : Option String := none
deriving DecidableEq, Repr

/-- The `active_requests` dict, modelled as an association list with
last-write-wins `cacheSet` (Python dict keys are unique). -/
def Cache := List (String × CacheEntry)
deriving DecidableEq

instance : Membership (String × CacheEntry) Cache :=
  inferInstanceAs (Membership _ (List _))

def cacheGet (c : Cache) (rid : String) : Option CacheEntry :=
  match List.find? (fun p => p.1 = rid) c with
  | some p => some p.2
  | none => none

def cacheSet (c : Cache) (rid : String) (e : CacheEntry) : Cache :=
  (rid, e) :: List.filter (fun p => ¬ p.1 = rid) c

/-- `active_requests.pop(request_id, None)`. -/
def cacheRemove (c : Cache) (rid : String) : Cache :=
  List.filter (fun p => ¬ p.1 = rid) c

/-! ## `CoordinatorAgent.submit_bug_report` -/

/-- How one `submit_bug_report` call goes: the publish to the bug-reports
topic returns true, returns false, or an exception is raised inside the
`try` after the cache registration (e.g. during message serialization or
from the producer). -/
inductive SubmitOutcome where
  | pubOk
  | pubFail
  | exc
deriving DecidableEq, Repr

/-- Result of `submit_bug_report`: the cache after the call, the durable
store after the call (the method never touches the `StateManager`, so it is
returned unchanged), the returned value (`some request_id` or Python
`None`), and the status events sent. -/
structure SubmitResult where
  cache : Cache
  store : Store
  result : Option String
  events : List StatusMessage
deriving DecidableEq

/-- `CoordinatorAgent.submit_bug_report` (lines 45–84): registers
`request_id` in `active_requests` with status "submitted" and
`created_at = last_updated = now`, publishes the bug report to
`bug-reports`, and returns the request_id on success; on publish failure or
any exception it returns `None` — the cache registration is not rolled back
and the durable store is never written. -/
def submit_bug_report (cache : Cache) (store : Store) (rid bid : String)
    (outcome : SubmitOutcome) (t : Nat) : SubmitResult :=
  let cache' := cacheSet cache rid
    { bug_report_id := bid, status := "submitted", created_at := t
      last_updated := t }
  match outcome with
  | .pubOk =>
      { cache := cache', store := store, result := some rid
        events := [send_status_update "CoordinatorAgent" rid "submitted"
          ("Bug report " ++ bid ++ " submitted for processing")] }
  | .pubFail => { cache := cache', store := store, result := none, events := [] }
  | .exc => { cache := cache', store := store, result := none, events := [] }

/-! ## `CoordinatorAgent._process_status_update` -/

/-- An inbound message on the status topic as seen by the coordinator
(`message.get(...)` — every field may be absent; the coordinator only guards
on `request_id`). -/
structure InStatusMsg where
  request_id : Option String := none
  status : Option String := none
  agent : Option String := none
  message : Option String := none
  metadata : Metadata := {}
deriving DecidableEq, Repr

/-- `status in ["completed", "failed"]` — the completion trigger of
`_process_status_update` (line 115). -/
def isCompletionTrigger (status : Option String) : Bool :=
  status = some "completed" ∨ status = some "failed"

/-- `CoordinatorAgent._handle_request_completion` (lines 121–157): when the
request is still cached, on final status "completed" re-emits a final
success notification carrying issue number/url and processing time drawn
from the event metadata. The 30-second delayed cache eviction
(`threading.Timer`) fires outside this call, so the returned cache is
unchanged. -/
def handle_request_completion (cache : Cache) (rid : String)
    (final_status : Option String) (msg : InStatusMsg) (t : Nat) :
    List StatusMessage :=
  match cacheGet cache rid with
  | none => []
  | some info =>
      if final_status = some "completed" then
        [send_status_update "CoordinatorAgent" rid "completed"
          ("Bug report processing completed successfully. GitHub issue #"
            ++ toString (repr msg.metadata.github_issue_number) ++ " created.")
          { processing_time_seconds := some (t - info.created_at)
            github_issue_number := msg.metadata.github_issue_number
            github_issue_url := msg.metadata.github_issue_url }]
      else []

/-- `CoordinatorAgent._process_status_update` (lines 93–119): drops events
without a request_id; otherwise unconditionally overwrites the cached
status/last_updated/last_agent of a tracked request with the event's values
(there is no terminal-state guard), then runs completion handling when the
status string is "completed" or "failed". Returns the new cache, the events
emitted by completion handling, and whether completion handling ran. -/
def process_status_update (cache : Cache) (msg : InStatusMsg) (t : Nat) :
    Cache × List StatusMessage × Bool :=
  match msg.request_id with
  | none => (cache, [], false)
  | some rid =>
      let cache' :=
        match cacheGet cache rid with
        | some e => cacheSet cache rid
            { e with
              status := (msg.status.getD "")
              last_updated := t
              last_agent := msg.agent }
        | none => cache
      if isCompletionTrigger msg.status then
        (cache', handle_request_completion cache' rid msg.status msg t, true)
      else
        (cache', [], false)

/-! ## Timeout monitor (`_monitor_timeouts`, one sweep iteration) -/

/-- Joint coordinator state threaded through one monitor sweep. -/
structure SweepState where
  cache : Cache
  store : Store
  events : List StatusMessage
deriving DecidableEq

/-- The error message `_handle_timeout` records and sends:
`f"Request timed out after {Config.TIMEOUT_SECONDS} seconds"`. -/
def timeoutMessage : String :=
  "Request timed out after " ++ toString TIMEOUT_SECONDS ++ " seconds"

/-- The FAILED status event `_handle_timeout` emits, with the timeout marker
and the last seen status/agent in its metadata. -/
def timeoutEvent (rid : String) (info : CacheEntry) : StatusMessage :=
  send_status_update "CoordinatorAgent" rid "failed" timeoutMessage
    { timeout := some true
      last_status := some info.status
      last_agent := info.last_agent }

/-- `CoordinatorAgent._handle_timeout` (lines 182–213): re-reads the cache
entry (no-op when already gone), records the timeout error into the durable
store via `StateManager.set_error` (which silently does nothing when the
store has no record), emits a FAILED status event whose metadata carries
`timeout: True` plus the last seen status/agent, and evicts the entry from
the cache. -/
def handle_timeout (s : SweepState) (rid : String) (now : Nat) : SweepState :=
  match cacheGet s.cache rid with
  | none => s
  | some info =>
      { cache := cacheRemove s.cache rid
        store := (set_error s.store rid timeoutMessage now).1
        events := s.events ++ [timeoutEvent rid info] }

/-- `CoordinatorAgent._cleanup_old_requests` (lines 215–229): evicts every
cache entry whose `created_at` is more than 3600 seconds old. -/
def cleanup_old_requests (c : Cache) (now : Nat) : Cache :=
  List.filter (fun p => ¬ now - p.2.created_at > 3600) c

/-- One iteration of the `_monitor_timeouts` loop (lines 159–176): collect
every cached request whose `last_updated` is strictly more than
`TIMEOUT_SECONDS` old, run `_handle_timeout` on each, then clean up
hour-old entries. -/
def monitor_sweep (cache : Cache) (store : Store) (now : Nat) : SweepState :=
  let timeout_requests :=
    (List.filter (fun p => now - p.2.last_updated > TIMEOUT_SECONDS) cache).map
      Prod.fst
  let s := List.foldl (fun s rid => handle_timeout s rid now)
    { cache := cache, store := store, events := [] } timeout_requests
  { s with cache := cleanup_old_requests s.cache now }

/-! ## `CoordinatorAgent.get_request_status` -/

/-- The dict returned by `get_request_status`: the durable record's fields,
plus `processing_time` only when the in-memory cache also held the request. -/
structure StatusView where
  request_id : String
  status : TicketStatus
  current_step : String
  progress : List (String × Nat)
  error_message : Option String
  github_issue_number : Option Nat
  github_issue_url : Option String
  created_at : Nat
  updated_at : Nat
  processing_time : Option Nat := none
deriving DecidableEq, Repr

/-- The view built from a durable record (both return dicts of
`get_request_status` share these fields). -/
def mkView (rid : String) (st : RequestState) (pt : Option Nat) : StatusView :=
  { request_id := rid
    status := st.status
    current_step := st.current_step
    progress := st.progress
    error_message := st.error_message
    github_issue_number := st.github_issue_number
    github_issue_url := st.github_issue_url
    created_at := st.created_at
    updated_at := st.updated_at
    processing_time := pt }

/-- `CoordinatorAgent.get_request_status` (lines 231–274): when the request
is in the in-memory cache, it returns a view only if the durable store also
has the record (store fields plus `processing_time`); otherwise control
falls through to the store-only lookup; `None` when the store has no
record. The in-memory cache entry alone is never returned. -/
def get_request_status (cache : Cache) (store : Store) (rid : String)
    (now : Nat) : Option StatusView :=
  match cacheGet cache rid with
  | some mem =>
      match storeGet store rid with
      | some st => some (mkView rid st (some (now - mem.created_at)))
      | none =>
          match storeGet store rid with
          | some st => some (mkView rid st none)
          | none => none
  | none =>
      match storeGet store rid with
      | some st => some (mkView rid st none)
      | none => none

/-! ## Triage stage (`src/agents/triage_agent.py`) and the consume loop -/

/-- An inbound message on the `bug-reports` topic as seen by
`TriageAgent.process_message`: `message.get("request_id")` and
`message.get("bug_report")` may each be absent. Of the embedded bug report
only its `id` matters to the lifecycle state (the rest feeds the LLM
prompt). -/
structure PipelineMsg where
  request_id : Option String := none
  bug_report : Option String := none
deriving DecidableEq, Repr

/-- `BaseAgent.handle_error` (lines 84–99): records
`"{agent}: {error_message}"` into the store via `set_error` and emits a
"failed" status event with the raw error message. -/
def handle_error (store : Store) (agent rid msg : String) (t : Nat) :
    Store × StatusMessage :=
  ((set_error store rid (agent ++ ": " ++ msg) t).1,
   send_status_update agent rid "failed" msg)

/-- `TriageAgent.process_message` (lines 54–119). `analyzeOk` is the outcome
of the LLM analysis (`_analyze_bug_report` returns a result or `None`),
`pubOk` the outcome of the publish to the triage topic. On a message missing
`bug_report` or `request_id` the method logs and returns before touching the
store. Returns the store after the call and the status events emitted. -/
def triage_process (store : Store) (topic : String) (msg : PipelineMsg)
    (analyzeOk pubOk : Bool) (t : Nat) : Store × List StatusMessage :=
  if topic = "bug-reports" then
    match msg.request_id, msg.bug_report with
    | some rid, some bid =>
        let store1 := (create_request_state store rid bid "triage" t).1
        let startEv := send_status_update "TriageAgent" rid "processing"
          "Starting bug triage"
        if analyzeOk then
          let store2 := (update_progress store1 rid "triage_completed" t).1
          if pubOk then
            let doneEv := send_status_update "TriageAgent" rid "completed"
              "Completed bug triage"
            let store3 := (update_request_state store2 rid
              { status := some TicketStatus.triaged } t).1
            (store3, [startEv, doneEv])
          else
            let (store3, failEv) := handle_error store2 "TriageAgent" rid
              "Failed to send triage result to Kafka" t
            (store3, [startEv, failEv])
        else
          let (store2, failEv) := handle_error store1 "TriageAgent" rid
            "Failed to analyze bug report" t
          (store2, [startEv, failEv])
    | _, _ => (store, [])
  else (store, [])

/-- The per-message dispatch of `KafkaConsumerManager.start_consuming`
(lines 93–126): each handler invocation is wrapped in its own
`try`/`except`, so a handler error leaves the loop state as it was and the
loop moves on to the next message. -/
def runConsume (handler : String → PipelineMsg → Store → Except String Store)
    (msgs : List (String × PipelineMsg)) (store : Store) : Store :=
  List.foldl
    (fun s m =>
      match handler m.1 m.2 s with
      | .ok s' => s'
      | .error _ => s)
    store msgs

/-- `TriageAgent.process_message` as a consume-loop handler: its outer
`try`/`except` catches every exception internally, so the handler never
propagates an error to the loop. -/
def triageHandler (analyzeOk pubOk : Bool) (t : Nat) :
    String → PipelineMsg → Store → Except String Store :=
  fun topic m s => Except.ok (triage_process s topic m analyzeOk pubOk t).1

/-! ## Sequences of Request State Store operations (reachability) -/

/-- The store operations the repository performs, each stamped with the
wall-clock time `datetime.now()` observed during the call. -/
inductive StoreOp where
  | create (rid bid step : String) (t : Nat)
  | update (rid : String) (u : StateUpdates) (t : Nat)
  | progress (rid step : String) (t : Nat)
  | err (rid msg : String) (t : Nat)
  | complete (rid : String) (n : Nat) (url : String) (t : Nat)
deriving DecidableEq, Repr

/-- The wall-clock time at which an operation runs. -/
def StoreOp.time : StoreOp → Nat
  | .create _ _ _ t => t
  | .update _ _ t => t
  | .progress _ _ t => t
  | .err _ _ t => t
  | .complete _ _ _ t => t

/-- Apply one store operation (dropping the success flag). -/
def applyOp (s : Store) : StoreOp → Store
  | .create rid bid step t => (create_request_state s rid bid step t).1
  | .update rid u t => (update_request_state s rid u t).1
  | .progress rid step t => (update_progress s rid step t).1
  | .err rid msg t => (set_error s rid msg t).1
  | .complete rid n url t => (mark_completed s rid n url t).1

/-- The store reached by running a sequence of operations from the empty
store. -/
def runOps (ops : List StoreOp) : Store :=
  List.foldl applyOp [] ops

/-- A wall clock that never runs backwards: operation times are
nondecreasing along the sequence. -/
def timesMono (ops : List StoreOp) : Prop :=
  List.Chain' (· ≤ ·) (ops.map StoreOp.time)

instance (ops : List StoreOp) : Decidable (timesMono ops) :=
  inferInstanceAs (Decidable (List.Chain' _ _))

/-! ## Association-list lemmas shared by the store and the cache -/

theorem find?_filter_ne {β : Type} (s : List (String × β)) (rid rid' : String)
    (h : ¬ rid' = rid) :
    List.find? (fun p => p.1 = rid') (List.filter (fun p => ¬ p.1 = rid) s)
      = List.find? (fun p => p.1 = rid') s := by
  rw [List.find?_filter]
  congr 1
  funext a
  by_cases hb : a.1 = rid'
  · have ha : ¬ a.1 = rid := by
      intro hc
      exact h (by rw [← hb, hc])
    simp [hb, ha, h]
  · simp [hb]

theorem find?_filter_self {β : Type} (s : List (String × β)) (rid : String) :
    List.find? (fun p => p.1 = rid) (List.filter (fun p => ¬ p.1 = rid) s)
      = none := by
  rw [List.find?_eq_none]
  intro p hp
  have := List.of_mem_filter hp
  simpa using this

theorem storeGet_set_self (s : Store) (rid : String) (st : RequestState) :
    storeGet (storeSet s rid st) rid = some st := by
  simp [storeGet, storeSet, List.find?]

theorem storeGet_set_ne (s : Store) (rid rid' : String) (st : RequestState)
    (h : ¬ rid' = rid) :
    storeGet (storeSet s rid st) rid' = storeGet s rid' := by
  have h' : ¬ rid = rid' := fun hc => h hc.symm
  simp only [storeGet, storeSet]
  rw [List.find?_cons_of_neg _ (by simpa using h'), find?_filter_ne _ _ _ h]

theorem cacheGet_set_self (c : Cache) (rid : String) (e : CacheEntry) :
    cacheGet (cacheSet c rid e) rid = some e := by
  simp [cacheGet, cacheSet, List.find?]

theorem cacheGet_set_ne (c : Cache) (rid rid' : String) (e : CacheEntry)
    (h : ¬ rid' = rid) :
    cacheGet (cacheSet c rid e) rid' = cacheGet c rid' := by
  have h' : ¬ rid = rid' := fun hc => h hc.symm
  simp only [cacheGet, cacheSet]
  rw [List.find?_cons_of_neg _ (by simpa using h'), find?_filter_ne _ _ _ h]

theorem cacheGet_remove_self (c : Cache) (rid : String) :
    cacheGet (cacheRemove c rid) rid = none := by
  simp only [cacheGet, cacheRemove]
  rw [find?_filter_self]

theorem cacheGet_remove_ne (c : Cache) (rid rid' : String) (h : ¬ rid' = rid) :
    cacheGet (cacheRemove c rid) rid' = cacheGet c rid' := by
  simp only [cacheGet, cacheRemove]
  rw [find?_filter_ne _ _ _ h]

theorem update_get_self {s : Store} {rid : String} {u : StateUpdates} {t : Nat}
    {st : RequestState} (h : storeGet s rid = some st) :
    storeGet (update_request_state s rid u t).1 rid
      = some (applyUpdates st u t) := by
  simp [update_request_state, h, storeGet_set_self]

theorem update_get_ne {s : Store} {rid rid' : String} {u : StateUpdates}
    {t : Nat} (h : ¬ rid' = rid) :
    storeGet (update_request_state s rid u t).1 rid' = storeGet s rid' := by
  unfold update_request_state
  cases hs : storeGet s rid
  · rfl
  · exact storeGet_set_ne _ _ _ _ h

theorem progress_get_self {s : Store} {rid step : String} {t : Nat}
    {st : RequestState} (h : storeGet s rid = some st) :
    storeGet (update_progress s rid step t).1 rid
      = some { st with
          progress := (step, t) :: List.filter (fun p => ¬ p.1 = step) st.progress
          current_step := step
          updated_at := t } := by
  simp [update_progress, h, storeGet_set_self]

/-! ## Claim C1 — `get_request_status` store preference and cache fallback -/

/-- C1 counterexample: the claim says `get_request_status` falls back to the
in-memory cache entry when the store has nothing but the cache has an entry,
and returns `None` only when neither has a record. With the cache holding
request "r1" and the store empty, the code returns `None` anyway: the
cache-only view is never returned. -/
theorem c1_counterexample :
    (cacheGet [("r1",
        { bug_report_id := "BUG-001", status := "submitted",
          created_at := 0, last_updated := 0 : CacheEntry })] "r1").isSome = true
    ∧ storeGet [] "r1" = none
    ∧ get_request_status
        [("r1",
          { bug_report_id := "BUG-001", status := "submitted",
            created_at := 0, last_updated := 0 : CacheEntry })]
        [] "r1" 10 = none := by
  refine ⟨rfl, rfl, rfl⟩

/-- C1 amended: `get_request_status` returns the durable-store view whenever
the store has a record — with `processing_time` added when the cache also
holds the request — and returns `None` whenever the store has no record,
even if the in-memory cache has an entry for the request_id. -/
theorem c1_get_status_amended (cache : Cache) (store : Store) (rid : String)
    (now : Nat) :
    get_request_status cache store rid now
      = (storeGet store rid).map (fun st =>
          mkView rid st ((cacheGet cache rid).map (fun m => now - m.created_at))) := by
  unfold get_request_status
  cases hc : cacheGet cache rid <;> cases hs : storeGet store rid <;> simp [hc, hs]

/-! ## Claim C3 — `submit_bug_report` result discipline -/

/-- C3: `submit_bug_report` returns the (non-empty) generated request_id
exactly when the publish to the bug-reports topic succeeds, and returns
`None` — the model is a total function, so no exception escapes — both when
the relay reports publish failure and when an exception is raised during
submission. -/
theorem c3_submit_result (cache : Cache) (store : Store) (rid bid : String)
    (t : Nat) (hrid : rid ≠ "") :
    ((submit_bug_report cache store rid bid SubmitOutcome.pubOk t).result
        = some rid ∧ rid ≠ "")
    ∧ (submit_bug_report cache store rid bid SubmitOutcome.pubFail t).result = none
    ∧ (submit_bug_report cache store rid bid SubmitOutcome.exc t).result = none :=
  ⟨⟨rfl, hrid⟩, rfl, rfl⟩

/-- C3 witness at a concrete submission. -/
theorem c3_submit_result_witness :
    ((submit_bug_report [] [] "req-1" "BUG-001" SubmitOutcome.pubOk 0).result
        = some "req-1" ∧ "req-1" ≠ "")
    ∧ (submit_bug_report [] [] "req-1" "BUG-001" SubmitOutcome.pubFail 0).result = none
    ∧ (submit_bug_report [] [] "req-1" "BUG-001" SubmitOutcome.exc 0).result = none :=
  c3_submit_result [] [] "req-1" "BUG-001" 0 (by decide)

/-! ## Claim C7 — `send_message` blocking-acknowledgement contract -/

/-- C7 counterexample: the claim says `send_message` returns true only when
the broker acknowledged the message as delivered. Here no exception is
raised, the delivery callback reports a failure, and no ack arrived within
the 10-second flush window — yet `send_message` returns true, because the
return value ignores both the callback report and the flush outcome. -/
theorem c7_counterexample :
    send_message
      { raises := false, deliveryErr := some "broker rejected message"
        ackedInFlushWindow := false } = true
    ∧ (TransportBehavior.deliveryErr
        { raises := false, deliveryErr := some "broker rejected message"
          ackedInFlushWindow := false }) ≠ none
    ∧ (TransportBehavior.ackedInFlushWindow
        { raises := false, deliveryErr := some "broker rejected message"
          ackedInFlushWindow := false }) = false := by
  refine ⟨rfl, by decide, rfl⟩

/-- C7 amended: `send_message` never throws, and it returns false exactly
when an exception is raised inside the call (serialization, `produce`, or
`flush`); when no exception is raised it returns true regardless of the
delivery callback's report or whether the broker acknowledged within the
flush window, so delivery failures are only logged, not reported to the
caller. -/
theorem c7_send_message_amended (b : TransportBehavior) :
    (send_message b = false ↔ b.raises = true)
    ∧ (send_message b = true ↔ b.raises = false) := by
  cases hb : b.raises <;> simp [send_message, hb]

/-! ## Claim C6 — malformed messages are dropped without halting the loop -/

/-- After the triage stage consumes the valid entry message for `rid`
carrying bug report `bid`, the store has a record for `rid` referencing
`bid` — whatever the LLM analysis and downstream publish outcomes were. -/
theorem triage_creates_record (store : Store) (rid bid : String)
    (a p : Bool) (t : Nat) :
    (storeGet
        (triage_process store "bug-reports"
          { request_id := some rid, bug_report := some bid } a p t).1 rid).map
      RequestState.bug_report_id = some bid := by
  have h0 :
      storeGet (create_request_state store rid bid "triage" t).1 rid
        = some (create_request_state store rid bid "triage" t).2 :=
    storeGet_set_self _ _ _
  have h1 := @progress_get_self _ _ "triage_completed" t _ h0
  have hmap : ∀ {s : Store} {rid' : String} {u : StateUpdates} {t' : Nat}
      {st : RequestState}, storeGet s rid' = some st →
      (storeGet (update_request_state s rid' u t').1 rid').map
        RequestState.bug_report_id = some st.bug_report_id := by
    intro s rid' u t' st h
    rw [update_get_self h]
    rfl
  cases a <;> cases p <;>
    first
    | exact hmap h0
    | exact hmap h1

/-- C6: a message on the bug-reports topic lacking a request_id is dropped
by `TriageAgent.process_message` with the store untouched and no status
event emitted; the consume loop then processes the remaining messages as if
the malformed one had never arrived, and a handler that raises on one
message likewise leaves the loop state unchanged for the rest of the
messages — one malformed message never halts the consume loop. -/
theorem c6_malformed_drop (m : PipelineMsg) (hm : m.request_id = none)
    (rest : List (String × PipelineMsg)) (store : Store) (a p : Bool)
    (t : Nat) :
    (triage_process store "bug-reports" m a p t).1 = store
    ∧ (triage_process store "bug-reports" m a p t).2 = []
    ∧ runConsume (triageHandler a p t) (("bug-reports", m) :: rest) store
        = runConsume (triageHandler a p t) rest store
    ∧ ∀ (h : String → PipelineMsg → Store → Except String Store) (e : String),
        h "bug-reports" m store = Except.error e →
        runConsume h (("bug-reports", m) :: rest) store
          = runConsume h rest store := by
  obtain ⟨mrid, mbr⟩ := m
  simp only at hm
  subst hm
  have hdrop : ∀ (a p : Bool),
      triage_process store "bug-reports" ⟨none, mbr⟩ a p t = (store, []) := by
    intro a p
    cases mbr <;> rfl
  refine ⟨?_, ?_, ?_, ?_⟩
  · rw [hdrop]
  · rw [hdrop]
  · show List.foldl _ _ _ = _
    rw [List.foldl_cons]
    simp only [triageHandler]
    rw [hdrop]
    rfl
  · intro h e he
    show List.foldl _ _ _ = _
    rw [List.foldl_cons]
    simp only [he]
    rfl

/-- C6 witness: a concrete malformed message ahead of a valid one. -/
theorem c6_malformed_drop_witness :
    (triage_process [] "bug-reports"
        { request_id := none, bug_report := some "BUG-001" } true true 0).1 = []
    ∧ runConsume (triageHandler true true 0)
        [("bug-reports", { request_id := none, bug_report := some "BUG-001" }),
         ("bug-reports", { request_id := some "r1", bug_report := some "BUG-001" })] []
        = runConsume (triageHandler true true 0)
            [("bug-reports", { request_id := some "r1", bug_report := some "BUG-001" })] [] :=
  ⟨(c6_malformed_drop { request_id := none, bug_report := some "BUG-001" } rfl
      [("bug-reports", { request_id := some "r1", bug_report := some "BUG-001" })]
      [] true true 0).1,
   (c6_malformed_drop { request_id := none, bug_report := some "BUG-001" } rfl
      [("bug-reports", { request_id := some "r1", bug_report := some "BUG-001" })]
      [] true true 0).2.2.1⟩

/-! ## Claim C10 — submit never writes the durable store -/

/-- C10: `submit_bug_report` leaves the durable Request State Store
untouched for every outcome, so a request accepted by a successful submit
has no store record until the triage stage first consumes the entry
message; `create_request_state` — run by the triage stage on first sight —
is what creates the record, with status PENDING, and after the triage stage
consumes the entry message the store has a record for the request. -/
theorem c10_submit_never_writes_store (cache : Cache) (store : Store)
    (rid bid : String) (oc : SubmitOutcome) (t t' : Nat) (a p : Bool)
    (hfresh : storeGet store rid = none) :
    (submit_bug_report cache store rid bid oc t).store = store
    ∧ storeGet (submit_bug_report cache store rid bid SubmitOutcome.pubOk t).store
        rid = none
    ∧ (create_request_state
        (submit_bug_report cache store rid bid SubmitOutcome.pubOk t).store
        rid bid "triage" t').2.status = TicketStatus.pending
    ∧ (storeGet
        (triage_process
          (submit_bug_report cache store rid bid SubmitOutcome.pubOk t).store
          "bug-reports" { request_id := some rid, bug_report := some bid }
          a p t').1 rid).map RequestState.bug_report_id = some bid := by
  have hstore : ∀ oc', (submit_bug_report cache store rid bid oc' t).store = store := by
    intro oc'
    cases oc' <;> rfl
  refine ⟨hstore oc, ?_, rfl, ?_⟩
  · rw [hstore SubmitOutcome.pubOk]
    exact hfresh
  · rw [hstore SubmitOutcome.pubOk]
    exact triage_creates_record store rid bid a p t'

/-! ## Lemmas on `handle_timeout` and the monitor sweep -/

theorem update_get_map (s : Store) (rid : String) (u : StateUpdates) (t : Nat) :
    storeGet (update_request_state s rid u t).1 rid
      = (storeGet s rid).map (fun st => applyUpdates st u t) := by
  cases h : storeGet s rid
  · simp [update_request_state, h]
  · simp [update_request_state, h, storeGet_set_self]

theorem handle_timeout_cache_none {s : SweepState} {rid : String}
    (rid' : String) (now : Nat) (h : cacheGet s.cache rid = none) :
    cacheGet (handle_timeout s rid' now).cache rid = none := by
  unfold handle_timeout
  split
  · exact h
  · by_cases he : rid = rid'
    · subst he
      exact cacheGet_remove_self _ _
    · show cacheGet (cacheRemove s.cache rid') rid = none
      rw [cacheGet_remove_ne _ _ _ he]
      exact h

theorem handle_timeout_cache_evict (s : SweepState) (rid : String) (now : Nat) :
    cacheGet (handle_timeout s rid now).cache rid = none := by
  unfold handle_timeout
  split
  · assumption
  · exact cacheGet_remove_self _ _

theorem handle_timeout_cache_ne {s : SweepState} {rid rid' : String}
    (now : Nat) (h : ¬ rid' = rid) :
    cacheGet (handle_timeout s rid now).cache rid' = cacheGet s.cache rid' := by
  unfold handle_timeout
  split
  · rfl
  · exact cacheGet_remove_ne _ _ _ h

theorem handle_timeout_store_ne {s : SweepState} {rid rid' : String}
    (now : Nat) (h : ¬ rid' = rid) :
    storeGet (handle_timeout s rid now).store rid' = storeGet s.store rid' := by
  unfold handle_timeout
  split
  · rfl
  · exact update_get_ne h

theorem handle_timeout_events_mono {s : SweepState} {ev : StatusMessage}
    (rid : String) (now : Nat) (h : ev ∈ s.events) :
    ev ∈ (handle_timeout s rid now).events := by
  unfold handle_timeout
  split
  · exact h
  · exact List.mem_append_left _ h

theorem foldTO_cache_none {rids : List String} {s : SweepState} {rid : String}
    {now : Nat} (h : cacheGet s.cache rid = none) :
    cacheGet (List.foldl (fun s r => handle_timeout s r now) s rids).cache rid
      = none := by
  induction rids generalizing s with
  | nil => exact h
  | cons r rest ih => exact ih (handle_timeout_cache_none r now h)

theorem foldTO_evicts {rids : List String} {rid : String} (hmem : rid ∈ rids)
    (s : SweepState) (now : Nat) :
    cacheGet (List.foldl (fun s r => handle_timeout s r now) s rids).cache rid
      = none := by
  induction rids generalizing s with
  | nil => cases hmem
  | cons r rest ih =>
      rw [List.foldl_cons]
      rcases List.mem_cons.mp hmem with he | hmem'
      · subst he
        exact foldTO_cache_none (handle_timeout_cache_evict s rid now)
      · exact ih hmem' _

theorem foldTO_cache_frozen {rids : List String} {s : SweepState}
    {rid : String} {now : Nat} (h : ∀ r ∈ rids, ¬ rid = r) :
    cacheGet (List.foldl (fun s r => handle_timeout s r now) s rids).cache rid
      = cacheGet s.cache rid := by
  induction rids generalizing s with
  | nil => rfl
  | cons r rest ih =>
      rw [List.foldl_cons]
      rw [ih fun r' hr' => h r' (List.mem_cons_of_mem _ hr')]
      exact handle_timeout_cache_ne now (h r (List.mem_cons_self _ _))

theorem foldTO_store_frozen {rids : List String} {s : SweepState}
    {rid : String} {now : Nat} (h : ∀ r ∈ rids, ¬ rid = r) :
    storeGet (List.foldl (fun s r => handle_timeout s r now) s rids).store rid
      = storeGet s.store rid := by
  induction rids generalizing s with
  | nil => rfl
  | cons r rest ih =>
      rw [List.foldl_cons]
      rw [ih fun r' hr' => h r' (List.mem_cons_of_mem _ hr')]
      exact handle_timeout_store_ne now (h r (List.mem_cons_self _ _))

theorem foldTO_events_mono {rids : List String} {s : SweepState}
    {ev : StatusMessage} {now : Nat} (h : ev ∈ s.events) :
    ev ∈ (List.foldl (fun s r => handle_timeout s r now) s rids).events := by
  induction rids generalizing s with
  | nil => exact h
  | cons r rest ih => exact ih (handle_timeout_events_mono r now h)

theorem cacheGet_mem {cache : Cache} {rid : String} {info : CacheEntry}
    (hc : cacheGet cache rid = some info) : (rid, info) ∈ cache := by
  unfold cacheGet at hc
  cases hf : List.find? (fun p => p.1 = rid) cache with
  | none => rw [hf] at hc; cases hc
  | some p =>
      rw [hf] at hc
      have hmem := List.mem_of_find?_eq_some hf
      have hkey : p.1 = rid := by
        have := List.find?_some hf
        simpa using this
      have hval : p.2 = info := by
        cases hc
        rfl
      have : p = (rid, info) := Prod.ext hkey hval
      rw [← this]
      exact hmem

theorem mem_timeouts_intro {cache : Cache} {now : Nat} {rid : String}
    {info : CacheEntry} (hc : cacheGet cache rid = some info)
    (hto : now - info.last_updated > TIMEOUT_SECONDS) :
    rid ∈ (List.filter
        (fun p => now - p.2.last_updated > TIMEOUT_SECONDS) cache).map
      Prod.fst := by
  refine List.mem_map.mpr ⟨(rid, info), ?_, rfl⟩
  exact List.mem_filter.mpr ⟨cacheGet_mem hc, by simpa using hto⟩

theorem mem_timeouts_elim {cache : Cache} {now : Nat} {rid : String}
    (h : rid ∈ (List.filter
        (fun p => now - p.2.last_updated > TIMEOUT_SECONDS) cache).map
      Prod.fst) :
    ∃ e, (rid, e) ∈ cache ∧ now - e.last_updated > TIMEOUT_SECONDS := by
  obtain ⟨p, hp, hkey⟩ := List.mem_map.mp h
  have hfil := List.mem_filter.mp hp
  refine ⟨p.2, ?_, by simpa using hfil.2⟩
  have : p = (rid, p.2) := Prod.ext hkey rfl
  rw [← this]
  exact hfil.1

theorem cleanup_preserves_none {c : Cache} {rid : String} (now : Nat)
    (h : cacheGet c rid = none) :
    cacheGet (cleanup_old_requests c now) rid = none := by
  unfold cacheGet at h ⊢
  cases hf : List.find? (fun p => p.1 = rid) (cleanup_old_requests c now) with
  | none => rfl
  | some p =>
      exfalso
      have hmem := List.mem_of_find?_eq_some hf
      have hmem' : p ∈ c := List.mem_of_mem_filter hmem
      have hkey := List.find?_some hf
      have hnone := List.find?_eq_none.mp (by
        cases hfind : List.find? (fun p => p.1 = rid) c with
        | none => rfl
        | some q => rw [hfind] at h; cases h)
      exact absurd hkey (by simpa using hnone p hmem')

theorem cacheGet_filter_keep {c : Cache} {q : String × CacheEntry → Bool}
    {rid : String} {e : CacheEntry} (h : cacheGet c rid = some e)
    (hq : q (rid, e) = true) :
    cacheGet (List.filter q c) rid = some e := by
  induction c with
  | nil => cases h
  | cons a tl ih =>
      by_cases hk : a.1 = rid
      · have ha : a = (rid, e) := by
          have : cacheGet (a :: tl) rid = some a.2 := by
            unfold cacheGet
            rw [List.find?_cons_of_pos _ (by simpa using hk)]
          rw [this] at h
          cases h
          exact Prod.ext hk rfl
        subst ha
        rw [List.filter_cons_of_pos hq]
        unfold cacheGet
        rw [List.find?_cons_of_pos _ (by simp)]
      · have h' : cacheGet tl rid = some e := by
          unfold cacheGet at h ⊢
          rwa [List.find?_cons_of_neg _ (by simpa using hk)] at h
        by_cases hqa : q a = true
        · rw [List.filter_cons_of_pos hqa]
          unfold cacheGet
          rw [List.find?_cons_of_neg _ (by simpa using hk)]
          exact ih h'
        · rw [List.filter_cons_of_neg (by simpa using hqa)]
          exact ih h'

/-- The aggregate effect of `_handle_timeout` folded over a duplicate-free
batch of timed-out request ids, for one id `rid` of the batch that is still
cached with entry `info`: the entry is evicted, the timeout-marked FAILED
event for it is emitted, and the durable record — when one exists — is
rewritten to FAILED with the timeout error message. -/
theorem foldTO_handles {rids : List String} (hnd : rids.Nodup) {rid : String}
    (hmem : rid ∈ rids) {s : SweepState} {info : CacheEntry} {now : Nat}
    (hc : cacheGet s.cache rid = some info) :
    cacheGet (List.foldl (fun s r => handle_timeout s r now) s rids).cache rid
        = none
    ∧ timeoutEvent rid info
        ∈ (List.foldl (fun s r => handle_timeout s r now) s rids).events
    ∧ storeGet
          (List.foldl (fun s r => handle_timeout s r now) s rids).store rid
        = (storeGet s.store rid).map (fun st =>
            applyUpdates st
              { status := some TicketStatus.failed
                error_message := some timeoutMessage } now) := by
  induction rids generalizing s with
  | nil => cases hmem
  | cons r rest ih =>
      have hnd' : rest.Nodup := hnd.of_cons
      have hrnot : r ∉ rest := (List.nodup_cons.mp hnd).1
      rw [List.foldl_cons]
      rcases List.mem_cons.mp hmem with he | hmem'
      · subst he
        have hnotin : ∀ r' ∈ rest, ¬ rid = r' := by
          intro r' hr' he'
          exact hrnot (he' ▸ hr')
        have hstep : handle_timeout s rid now =
            { cache := cacheRemove s.cache rid
              store := (set_error s.store rid timeoutMessage now).1
              events := s.events ++ [timeoutEvent rid info] } := by
          unfold handle_timeout
          rw [hc]
        refine ⟨?_, ?_, ?_⟩
        · apply foldTO_cache_none
          rw [hstep]
          exact cacheGet_remove_self _ _
        · apply foldTO_events_mono
          rw [hstep]
          exact List.mem_append_right _ (List.mem_singleton.mpr rfl)
        · rw [foldTO_store_frozen hnotin, hstep]
          exact update_get_map _ _ _ _
      · have hrne : ¬ rid = r := by
          intro he'
          exact hrnot (he' ▸ hmem')
        have hc' : cacheGet (handle_timeout s r now).cache rid = some info := by
          rw [handle_timeout_cache_ne now hrne]
          exact hc
        have := ih hnd' hmem' hc'
        refine ⟨this.1, this.2.1, ?_⟩
        rw [this.2.2, handle_timeout_store_ne now hrne]

/-- C10 witness at a concrete fresh submission. -/
theorem c10_submit_never_writes_store_witness :
    (submit_bug_report [] [] "r1" "BUG-001" SubmitOutcome.pubOk 0).store = []
    ∧ storeGet (submit_bug_report [] [] "r1" "BUG-001" SubmitOutcome.pubOk 0).store
        "r1" = none
    ∧ (create_request_state
        (submit_bug_report [] [] "r1" "BUG-001" SubmitOutcome.pubOk 0).store
        "r1" "BUG-001" "triage" 1).2.status = TicketStatus.pending
    ∧ (storeGet
        (triage_process
          (submit_bug_report [] [] "r1" "BUG-001" SubmitOutcome.pubOk 0).store
          "bug-reports" { request_id := some "r1", bug_report := some "BUG-001" }
          true true 1).1 "r1").map RequestState.bug_report_id = some "BUG-001" :=
  c10_submit_never_writes_store [] [] "r1" "BUG-001" SubmitOutcome.pubOk 0 1
    true true rfl

/-! ## Claim C9 — failed submit leaves a stale cache registration -/

/-- C9: when the publish fails (relay returns false, or an exception), the
submit returns `None` but the cache registration made before the publish is
not rolled back: the request_id stays in `active_requests` with status
"submitted" and `created_at = last_updated =` submit time; a monitor sweep
before the timeout threshold and the 1-hour ceiling leaves the stale entry
in place, and a sweep after the timeout threshold evicts it. -/
theorem c9_failed_submit_stale_cache (cache : Cache) (store : Store)
    (rid bid : String) (t : Nat) (oc : SubmitOutcome)
    (hoc : oc = SubmitOutcome.pubFail ∨ oc = SubmitOutcome.exc)
    (soon late : Nat)
    (hlive : ¬ soon - t > TIMEOUT_SECONDS) (hyoung : ¬ soon - t > 3600)
    (hto : late - t > TIMEOUT_SECONDS) :
    (submit_bug_report cache store rid bid oc t).result = none
    ∧ cacheGet (submit_bug_report cache store rid bid oc t).cache rid
        = some { bug_report_id := bid, status := "submitted",
                 created_at := t, last_updated := t }
    ∧ cacheGet (monitor_sweep
          (submit_bug_report cache store rid bid oc t).cache store soon).cache
        rid
        = some { bug_report_id := bid, status := "submitted",
                 created_at := t, last_updated := t }
    ∧ cacheGet (monitor_sweep
          (submit_bug_report cache store rid bid oc t).cache store late).cache
        rid = none := by
  set e : CacheEntry :=
    { bug_report_id := bid, status := "submitted"
      created_at := t, last_updated := t } with he
  have hcache : (submit_bug_report cache store rid bid oc t).cache
      = cacheSet cache rid e := by
    rcases hoc with h | h <;> (subst h; rfl)
  have hres : (submit_bug_report cache store rid bid oc t).result = none := by
    rcases hoc with h | h <;> (subst h; rfl)
  have hget : cacheGet (cacheSet cache rid e) rid = some e :=
    cacheGet_set_self _ _ _
  have hkeyed : ∀ e', (rid, e') ∈ cacheSet cache rid e → e' = e := by
    intro e' hmem
    rcases List.mem_cons.mp hmem with hh | hh
    · cases hh
      rfl
    · exfalso
      have := List.of_mem_filter hh
      simp at this
  have hnotto : rid ∉ (List.filter
      (fun p => soon - p.2.last_updated > TIMEOUT_SECONDS)
      (cacheSet cache rid e)).map Prod.fst := by
    intro hmem
    obtain ⟨e', hmem', hpred⟩ := mem_timeouts_elim hmem
    rw [hkeyed e' hmem'] at hpred
    exact hlive hpred
  refine ⟨hres, hcache ▸ hget, ?_, ?_⟩
  · rw [hcache]
    have hfrozen :
        cacheGet (List.foldl (fun s r => handle_timeout s r soon)
          { cache := cacheSet cache rid e, store := store, events := [] }
          ((List.filter (fun p => soon - p.2.last_updated > TIMEOUT_SECONDS)
            (cacheSet cache rid e)).map Prod.fst)).cache rid
          = some e := by
      have hfr : ∀ r ∈ (List.filter
          (fun p => soon - p.2.last_updated > TIMEOUT_SECONDS)
          (cacheSet cache rid e)).map Prod.fst, ¬ rid = r := by
        intro r hr hrr
        rw [← hrr] at hr
        exact hnotto hr
      rw [foldTO_cache_frozen hfr]
      exact hget
    exact cacheGet_filter_keep hfrozen (by simp [he, hyoung])
  · rw [hcache]
    apply cleanup_preserves_none
    apply foldTO_evicts
    exact @mem_timeouts_intro _ _ _ e hget hto

/-- C9 witness at a concrete failed submission and two concrete sweeps. -/
theorem c9_failed_submit_stale_cache_witness :
    (submit_bug_report [] [] "r1" "BUG-001" SubmitOutcome.pubFail 0).result = none
    ∧ cacheGet (submit_bug_report [] [] "r1" "BUG-001" SubmitOutcome.pubFail 0).cache
        "r1"
        = some { bug_report_id := "BUG-001", status := "submitted",
                 created_at := 0, last_updated := 0 }
    ∧ cacheGet (monitor_sweep
          (submit_bug_report [] [] "r1" "BUG-001" SubmitOutcome.pubFail 0).cache
          [] 100).cache "r1"
        = some { bug_report_id := "BUG-001", status := "submitted",
                 created_at := 0, last_updated := 0 }
    ∧ cacheGet (monitor_sweep
          (submit_bug_report [] [] "r1" "BUG-001" SubmitOutcome.pubFail 0).cache
          [] 301).cache "r1" = none :=
  c9_failed_submit_stale_cache [] [] "r1" "BUG-001" 0 SubmitOutcome.pubFail
    (Or.inl rfl) 100 301 (by decide) (by decide) (by decide)

/-! ## Claim C5 — timeout monitor force-fails stalled requests -/

/-- C5 counterexample: the claim says that for every cached request past the
timeout threshold the monitor "records a timeout error message into the
durable store". Here request "r1" is cached (stale since time 0, swept at
time 301 > 300) but the store has no record for it — submit never writes
the store — so `set_error` inside `_handle_timeout` fails silently and the
sweep leaves the store without any record: no timeout error message is
recorded durably, even though the FAILED event is emitted and the entry is
evicted. -/
theorem c5_counterexample :
    ((301 : Nat) - 0 > TIMEOUT_SECONDS)
    ∧ cacheGet [("r1",
        { bug_report_id := "BUG-001", status := "submitted",
          created_at := 0, last_updated := 0 : CacheEntry })] "r1"
        = some { bug_report_id := "BUG-001", status := "submitted",
                 created_at := 0, last_updated := 0 }
    ∧ storeGet (monitor_sweep
        [("r1",
          { bug_report_id := "BUG-001", status := "submitted",
            created_at := 0, last_updated := 0 : CacheEntry })]
        [] 301).store "r1" = none
    ∧ cacheGet (monitor_sweep
        [("r1",
          { bug_report_id := "BUG-001", status := "submitted",
            created_at := 0, last_updated := 0 : CacheEntry })]
        [] 301).cache "r1" = none := by
  refine ⟨by decide, rfl, ?_, ?_⟩ <;> rfl

/-- C5 amended: on a sweep, every cached request whose `last_updated` is
more than the timeout threshold old is force-failed: it is evicted from the
cache and a FAILED status event with the `timeout` metadata marker is
emitted; the timeout error message is recorded into the durable store
exactly when the store still has a record for the request (`set_error` is a
silent no-op when the record is absent or already expired). -/
theorem c5_timeout_sweep_amended (cache : Cache) (store : Store) (now : Nat)
    (rid : String) (info : CacheEntry)
    (hnodup : (cache.map Prod.fst).Nodup)
    (hc : cacheGet cache rid = some info)
    (hto : now - info.last_updated > TIMEOUT_SECONDS) :
    cacheGet (monitor_sweep cache store now).cache rid = none
    ∧ timeoutEvent rid info ∈ (monitor_sweep cache store now).events
    ∧ storeGet (monitor_sweep cache store now).store rid
        = (storeGet store rid).map (fun st =>
            applyUpdates st
              { status := some TicketStatus.failed
                error_message := some timeoutMessage } now) := by
  have hmemT : rid ∈ (List.filter
      (fun p => now - p.2.last_updated > TIMEOUT_SECONDS) cache).map Prod.fst :=
    mem_timeouts_intro hc hto
  have hndT : ((List.filter
      (fun p => now - p.2.last_updated > TIMEOUT_SECONDS) cache).map
        Prod.fst).Nodup :=
    List.Nodup.sublist (List.Sublist.map Prod.fst (List.filter_sublist cache))
      hnodup
  have happ := @foldTO_handles _ hndT _ hmemT
    { cache := cache, store := store, events := [] } _ now hc
  exact ⟨cleanup_preserves_none now happ.1, happ.2.1, happ.2.2⟩

/-- C5 witness: a sweep over a concrete stale request whose store record
exists. -/
theorem c5_timeout_sweep_amended_witness :
    cacheGet (monitor_sweep
        [("r1",
          { bug_report_id := "BUG-001", status := "processing",
            created_at := 0, last_updated := 0 : CacheEntry })]
        (create_request_state [] "r1" "BUG-001" "triage" 0).1 301).cache "r1"
      = none
    ∧ timeoutEvent "r1"
        { bug_report_id := "BUG-001", status := "processing",
          created_at := 0, last_updated := 0 }
        ∈ (monitor_sweep
            [("r1",
              { bug_report_id := "BUG-001", status := "processing",
                created_at := 0, last_updated := 0 : CacheEntry })]
            (create_request_state [] "r1" "BUG-001" "triage" 0).1 301).events
    ∧ storeGet (monitor_sweep
          [("r1",
            { bug_report_id := "BUG-001", status := "processing",
              created_at := 0, last_updated := 0 : CacheEntry })]
          (create_request_state [] "r1" "BUG-001" "triage" 0).1 301).store "r1"
        = (storeGet (create_request_state [] "r1" "BUG-001" "triage" 0).1
            "r1").map (fun st =>
              applyUpdates st
                { status := some TicketStatus.failed
                  error_message := some timeoutMessage } 301) :=
  c5_timeout_sweep_amended
    [("r1",
      { bug_report_id := "BUG-001", status := "processing",
        created_at := 0, last_updated := 0 : CacheEntry })]
    (create_request_state [] "r1" "BUG-001" "triage" 0).1 301 "r1"
    { bug_report_id := "BUG-001", status := "processing",
      created_at := 0, last_updated := 0 }
    (by decide) rfl (by decide)

/-! ## Claim C2 — terminal states absorb further events -/

/-- C2 counterexample: neither the store nor the coordinator cache guards
terminal states. With request "r1" recorded FAILED in the store, a
redelivered entry message reprocessed by the triage stage leaves the record
TRIAGED — a transition out of FAILED; and a coordinator cache entry at
"failed" is overwritten to "processing" by a redelivered non-terminal
status event. -/
theorem c2_counterexample :
    ((storeGet
        (set_error (create_request_state [] "r1" "BUG-001" "triage" 0).1
          "r1" "boom" 1).1 "r1").map RequestState.status
      = some TicketStatus.failed)
    ∧ ((storeGet
        (triage_process
          (set_error (create_request_state [] "r1" "BUG-001" "triage" 0).1
            "r1" "boom" 1).1
          "bug-reports" { request_id := some "r1", bug_report := some "BUG-001" }
          true true 2).1 "r1").map RequestState.status
      = some TicketStatus.triaged)
    ∧ TicketStatus.triaged ≠ TicketStatus.failed
    ∧ ((cacheGet (process_status_update
        [("r1", { bug_report_id := "BUG-001", status := "failed",
                  created_at := 0, last_updated := 1 : CacheEntry })]
        { request_id := some "r1", status := some "processing",
          agent := some "TriageAgent" } 2).1 "r1").map CacheEntry.status
      = some "processing") := by
  refine ⟨rfl, rfl, by decide, rfl⟩

/-- C2 amended: terminal states are not guarded — a redelivered non-terminal
event or pipeline message overwrites a FAILED/CREATED record (see the
counterexample) — but replaying the *same* terminal event is idempotent on
the recorded state: a second `set_error` with the same message leaves the
store record FAILED with that error message, and a duplicate "failed"
status event leaves the cached status "failed". -/
theorem c2_terminal_replay_amended (store : Store) (rid m : String)
    (t1 t2 : Nat) (st : RequestState) (h : storeGet store rid = some st)
    (cache : Cache) (agent : String) (t3 : Nat) :
    ((storeGet (set_error store rid m t1).1 rid).map RequestState.status
        = some TicketStatus.failed)
    ∧ ((storeGet (set_error (set_error store rid m t1).1 rid m t2).1 rid).map
        (fun r => (r.status, r.error_message))
        = some (TicketStatus.failed, some m))
    ∧ ∀ e, cacheGet cache rid = some e →
        (cacheGet (process_status_update cache
            { request_id := some rid, status := some "failed",
              agent := some agent } t3).1 rid).map CacheEntry.status
          = some "failed" := by
  have h1 : storeGet (set_error store rid m t1).1 rid
      = some (applyUpdates st
          { status := some TicketStatus.failed, error_message := some m } t1) :=
    update_get_self h
  have h2 := update_get_self (u :=
    { status := some TicketStatus.failed, error_message := some m })
    (t := t2) h1
  refine ⟨?_, ?_, ?_⟩
  · rw [h1]
    rfl
  · rw [show (set_error (set_error store rid m t1).1 rid m t2).1
        = (update_request_state (set_error store rid m t1).1 rid
            { status := some TicketStatus.failed, error_message := some m }
            t2).1 from rfl, h2]
    rfl
  · intro e he
    have hcache : (process_status_update cache
        { request_id := some rid, status := some "failed",
          agent := some agent } t3).1
        = cacheSet cache rid
            { e with
              status := "failed"
              last_updated := t3
              last_agent := some agent } := by
      simp only [process_status_update, he]
      rfl
    rw [hcache, cacheGet_set_self]
    rfl

/-! ## Claim C4 — `RequestState` record invariants -/

theorem storeGet_mem {s : Store} {rid : String} {st : RequestState}
    (h : storeGet s rid = some st) : (rid, st) ∈ s := by
  unfold storeGet at h
  cases hf : List.find? (fun p => p.1 = rid) s with
  | none => rw [hf] at h; cases h
  | some p =>
      rw [hf] at h
      have hmem := List.mem_of_find?_eq_some hf
      have hkey : p.1 = rid := by
        have := List.find?_some hf
        simpa using this
      have hval : p.2 = st := by
        cases h
        rfl
      have : p = (rid, st) := Prod.ext hkey hval
      rw [← this]
      exact hmem

theorem mem_storeSet {s : Store} {rid : String} {st : RequestState}
    {p : String × RequestState} (hp : p ∈ storeSet s rid st) :
    p = (rid, st) ∨ p ∈ s := by
  rcases List.mem_cons.mp hp with h | h
  · exact Or.inl h
  · exact Or.inr (List.mem_of_mem_filter h)

theorem storeSet_inv {s : Store} {b t : Nat} {rid : String} {st : RequestState}
    (h : ∀ p ∈ s, p.2.created_at ≤ p.2.updated_at ∧ p.2.updated_at ≤ b)
    (hb : b ≤ t)
    (hst : st.created_at ≤ st.updated_at ∧ st.updated_at ≤ t) :
    ∀ p ∈ storeSet s rid st,
      p.2.created_at ≤ p.2.updated_at ∧ p.2.updated_at ≤ t := by
  intro p hp
  rcases mem_storeSet hp with h1 | h1
  · subst h1
    exact hst
  · obtain ⟨ha, hb2⟩ := h p h1
    exact ⟨ha, le_trans hb2 hb⟩

theorem update_inv {s : Store} {b : Nat} {rid : String} {u : StateUpdates}
    {t : Nat}
    (h : ∀ p ∈ s, p.2.created_at ≤ p.2.updated_at ∧ p.2.updated_at ≤ b)
    (hb : b ≤ t) :
    ∀ p ∈ (update_request_state s rid u t).1,
      p.2.created_at ≤ p.2.updated_at ∧ p.2.updated_at ≤ t := by
  cases hg : storeGet s rid with
  | none =>
      have heq : (update_request_state s rid u t).1 = s := by
        unfold update_request_state
        rw [hg]
      rw [heq]
      intro p hp
      obtain ⟨ha, hb2⟩ := h p hp
      exact ⟨ha, le_trans hb2 hb⟩
  | some st0 =>
      have heq : (update_request_state s rid u t).1
          = storeSet s rid (applyUpdates st0 u t) := by
        unfold update_request_state
        rw [hg]
      rw [heq]
      apply storeSet_inv h hb
      have hmem := h _ (storeGet_mem hg)
      constructor
      · show st0.created_at ≤ t
        exact le_trans (le_trans hmem.1 hmem.2) hb
      · exact le_refl t

theorem progress_inv {s : Store} {b : Nat} {rid step : String} {t : Nat}
    (h : ∀ p ∈ s, p.2.created_at ≤ p.2.updated_at ∧ p.2.updated_at ≤ b)
    (hb : b ≤ t) :
    ∀ p ∈ (update_progress s rid step t).1,
      p.2.created_at ≤ p.2.updated_at ∧ p.2.updated_at ≤ t := by
  cases hg : storeGet s rid with
  | none =>
      have heq : (update_progress s rid step t).1 = s := by
        unfold update_progress
        rw [hg]
      rw [heq]
      intro p hp
      obtain ⟨ha, hb2⟩ := h p hp
      exact ⟨ha, le_trans hb2 hb⟩
  | some st0 =>
      have heq : (update_progress s rid step t).1
          = storeSet s rid { st0 with
              progress := (step, t) ::
                List.filter (fun p => ¬ p.1 = step) st0.progress
              current_step := step
              updated_at := t } := by
        unfold update_progress
        rw [hg]
      rw [heq]
      apply storeSet_inv h hb
      have hmem := h _ (storeGet_mem hg)
      constructor
      · show st0.created_at ≤ t
        exact le_trans (le_trans hmem.1 hmem.2) hb
      · exact le_refl t

theorem create_inv {s : Store} {b : Nat} {rid bid step : String} {t : Nat}
    (h : ∀ p ∈ s, p.2.created_at ≤ p.2.updated_at ∧ p.2.updated_at ≤ b)
    (hb : b ≤ t) :
    ∀ p ∈ (create_request_state s rid bid step t).1,
      p.2.created_at ≤ p.2.updated_at ∧ p.2.updated_at ≤ t := by
  apply storeSet_inv h hb
  exact ⟨le_refl t, le_refl t⟩

theorem applyOp_inv {b : Nat} {s : Store} (op : StoreOp)
    (h : ∀ p ∈ s, p.2.created_at ≤ p.2.updated_at ∧ p.2.updated_at ≤ b)
    (hb : b ≤ op.time) :
    ∀ p ∈ applyOp s op,
      p.2.created_at ≤ p.2.updated_at ∧ p.2.updated_at ≤ op.time := by
  cases op with
  | create rid bid step t => exact create_inv h hb
  | update rid u t => exact update_inv h hb
  | progress rid step t => exact progress_inv h hb
  | err rid msg t => exact update_inv h hb
  | complete rid n url t => exact update_inv h hb

theorem foldOps_inv (ops : List StoreOp) (b : Nat) (s : Store)
    (h : ∀ p ∈ s, p.2.created_at ≤ p.2.updated_at ∧ p.2.updated_at ≤ b)
    (hchain : List.Chain' (· ≤ ·) (b :: ops.map StoreOp.time)) :
    ∀ p ∈ List.foldl applyOp s ops, p.2.created_at ≤ p.2.updated_at := by
  induction ops generalizing b s with
  | nil =>
      intro p hp
      exact (h p hp).1
  | cons op rest ih =>
      rw [List.foldl_cons]
      simp only [List.map_cons] at hchain
      obtain ⟨hb, hchain'⟩ := List.chain'_cons.mp hchain
      exact ih op.time _ (applyOp_inv op h hb) hchain'

/-- C4 counterexample: the claim's "iff" invariants fail on reachable
records. Run create, then `mark_completed` (issue #77), then `set_error`
("boom") — the timeout monitor does exactly this to a completed-then-stalled
record: the final record has status FAILED while `github_issue_number` is
still 77, so "issue number/url set iff status = CREATED" is violated. -/
theorem c4_counterexample :
    ((storeGet (runOps
        [StoreOp.create "r1" "BUG-001" "triage" 0,
         StoreOp.complete "r1" 77 "https://github.com/o/r/issues/77" 1,
         StoreOp.err "r1" "boom" 2]) "r1").map
      (fun r => (r.status, r.github_issue_number)))
      = some (TicketStatus.failed, some 77)
    ∧ TicketStatus.failed ≠ TicketStatus.created :=
  ⟨rfl, by decide⟩

/-- C4 amended: for every record reachable from the empty store through any
sequence of store operations under a monotone wall clock,
`updated_at ≥ created_at` holds; and the one-directional invariants hold at
the writing operation: `set_error` always leaves the record FAILED with the
error message set, `mark_completed` always leaves it CREATED with issue
number/url set. The "iff" forms fail (see the counterexample) because no
operation clears the other terminal state's fields. -/
theorem c4_record_invariants_amended (ops : List StoreOp) (h : timesMono ops) :
    (∀ rid st, storeGet (runOps ops) rid = some st →
        st.created_at ≤ st.updated_at)
    ∧ (∀ s rid m t st, storeGet s rid = some st →
        (storeGet (set_error s rid m t).1 rid).map
          (fun r => (r.status, r.error_message))
          = some (TicketStatus.failed, some m))
    ∧ (∀ s rid n url t st, storeGet s rid = some st →
        (storeGet (mark_completed s rid n url t).1 rid).map
          (fun r => (r.status, r.github_issue_number, r.github_issue_url))
          = some (TicketStatus.created, some n, some url)) := by
  refine ⟨?_, ?_, ?_⟩
  · intro rid st hget
    have hchain : List.Chain' (· ≤ ·) (0 :: ops.map StoreOp.time) :=
      List.chain'_cons'.mpr ⟨fun b _ => Nat.zero_le b, h⟩
    have hinv := foldOps_inv ops 0 [] (by intro p hp; cases hp) hchain
    exact hinv _ (storeGet_mem hget)
  · intro s rid m t st hst
    rw [show (set_error s rid m t).1
        = (update_request_state s rid
            { status := some TicketStatus.failed, error_message := some m }
            t).1 from rfl, update_get_self hst]
    rfl
  · intro s rid n url t st hst
    rw [show (mark_completed s rid n url t).1
        = (update_request_state s rid
            { status := some TicketStatus.created
              github_issue_number := some n
              github_issue_url := some url
              current_step := some "completed" } t).1 from rfl,
      update_get_self hst]
    rfl

/-- C4 witness: a concrete two-operation history and a concrete `set_error`
postcondition. -/
theorem c4_record_invariants_amended_witness :
    ((storeGet (runOps [StoreOp.create "r1" "BUG-001" "triage" 0,
        StoreOp.err "r1" "boom" 2]) "r1").map
      (fun r => decide (r.created_at ≤ r.updated_at)) = some true)
    ∧ (storeGet (set_error (create_request_state [] "r1" "BUG-001" "triage" 0).1
        "r1" "boom" 2).1 "r1").map (fun r => (r.status, r.error_message))
      = some (TicketStatus.failed, some "boom") := by
  constructor
  · have h1 := (c4_record_invariants_amended
      [StoreOp.create "r1" "BUG-001" "triage" 0, StoreOp.err "r1" "boom" 2]
      (List.chain'_pair.mpr (by decide))).1 "r1"
      { request_id := "r1", bug_report_id := "BUG-001"
        status := TicketStatus.failed, current_step := "triage"
        error_message := some "boom", created_at := 0, updated_at := 2 } rfl
    rw [show storeGet (runOps [StoreOp.create "r1" "BUG-001" "triage" 0,
        StoreOp.err "r1" "boom" 2]) "r1"
      = some { request_id := "r1", bug_report_id := "BUG-001"
               status := TicketStatus.failed, current_step := "triage"
               error_message := some "boom", created_at := 0
               updated_at := 2 } from rfl]
    simp [h1]
  · exact (c4_record_invariants_amended [] List.chain'_nil).2.1
      (create_request_state [] "r1" "BUG-001" "triage" 0).1 "r1" "boom" 2
      (create_request_state [] "r1" "BUG-001" "triage" 0).2 rfl

/-- C2 witness: a concrete replay of the same terminal event on a record
and a cache entry that both exist. -/
theorem c2_terminal_replay_amended_witness :
    ((storeGet (set_error (create_request_state [] "r1" "BUG-001" "triage" 0).1
        "r1" "boom" 1).1 "r1").map RequestState.status
      = some TicketStatus.failed)
    ∧ ((storeGet (set_error
          (set_error (create_request_state [] "r1" "BUG-001" "triage" 0).1
            "r1" "boom" 1).1 "r1" "boom" 2).1 "r1").map
        (fun r => (r.status, r.error_message))
        = some (TicketStatus.failed, some "boom"))
    ∧ ((cacheGet (process_status_update
        [("r1", { bug_report_id := "BUG-001", status := "failed",
                  created_at := 0, last_updated := 1 : CacheEntry })]
        { request_id := some "r1", status := some "failed",
          agent := some "TriageAgent" } 3).1 "r1").map CacheEntry.status
      = some "failed") := by
  have h := c2_terminal_replay_amended
    (create_request_state [] "r1" "BUG-001" "triage" 0).1 "r1" "boom" 1 2
    (create_request_state [] "r1" "BUG-001" "triage" 0).2 rfl
    [("r1", { bug_report_id := "BUG-001", status := "failed",
              created_at := 0, last_updated := 1 : CacheEntry })]
    "TriageAgent" 3
  exact ⟨h.1, h.2.1, h.2.2 _ rfl⟩

/-! ## Claim C8 — the status-event vocabulary and the completion trigger -/

theorem handle_timeout_events_status {s : SweepState} {rid : String}
    {now : Nat} {ev : StatusMessage}
    (hev : ev ∈ (handle_timeout s rid now).events) :
    ev ∈ s.events ∨ ev.status = "failed" := by
  cases hc : cacheGet s.cache rid with
  | none =>
      have heq : handle_timeout s rid now = s := by
        unfold handle_timeout
        rw [hc]
      rw [heq] at hev
      exact Or.inl hev
  | some info =>
      have heq : (handle_timeout s rid now).events
          = s.events ++ [timeoutEvent rid info] := by
        unfold handle_timeout
        rw [hc]
      rw [heq] at hev
      rcases List.mem_append.mp hev with h | h
      · exact Or.inl h
      · right
        rw [List.mem_singleton.mp h]
        rfl

theorem foldTO_events_status {rids : List String} {s : SweepState} {now : Nat}
    {ev : StatusMessage}
    (hev : ev ∈ (List.foldl (fun s r => handle_timeout s r now) s rids).events) :
    ev ∈ s.events ∨ ev.status = "failed" := by
  induction rids generalizing s with
  | nil => exact Or.inl hev
  | cons r rest ih =>
      rw [List.foldl_cons] at hev
      rcases ih hev with h | h
      · exact handle_timeout_events_status h
      · exact Or.inr h

theorem handle_completion_events_status {cache : Cache} {rid : String}
    {fs : Option String} {msg : InStatusMsg} {t : Nat} {ev : StatusMessage}
    (hev : ev ∈ handle_request_completion cache rid fs msg t) :
    ev.status = "completed" := by
  unfold handle_request_completion at hev
  split at hev
  · cases hev
  · split at hev
    · rw [List.mem_singleton.mp hev]
      rfl
    · cases hev

/-- C8 counterexample: status events published by the stages carry the
statuses "processing" and "completed", which are not in the
SUBMITTED|PENDING|TRIAGED|IN_PROGRESS|CREATED|FAILED vocabulary the claim
states; and the coordinator's completion handling does not trigger on
"created" (the CREATED member's value) — it triggers on "completed" and
"failed". -/
theorem c8_counterexample :
    ((triage_process [] "bug-reports"
        { request_id := some "r1", bug_report := some "BUG-001" }
        true true 0).2.map StatusMessage.status) = ["processing", "completed"]
    ∧ "processing" ∉ specClaimedStatusSet
    ∧ "completed" ∉ specClaimedStatusSet
    ∧ isCompletionTrigger (some "created") = false
    ∧ isCompletionTrigger (some "completed") = true := by
  refine ⟨rfl, by decide, by decide, rfl, rfl⟩

/-- C8 amended: every status event emitted by the modelled emitters carries
a status drawn from {"submitted", "processing", "completed", "failed"}
(not from the claimed SUBMITTED|PENDING|TRIAGED|IN_PROGRESS|CREATED|FAILED
vocabulary), and the coordinator's completion handling triggers exactly on
the terminal members "completed" and "failed" of that actual set. -/
theorem c8_status_vocabulary_amended :
    (∀ (cache : Cache) (store : Store) (rid bid : String) (oc : SubmitOutcome)
        (t : Nat) (ev : StatusMessage),
        ev ∈ (submit_bug_report cache store rid bid oc t).events →
        ev.status ∈ emittedStatusSet)
    ∧ (∀ (store : Store) (topic : String) (m : PipelineMsg) (a p : Bool)
        (t : Nat) (ev : StatusMessage),
        ev ∈ (triage_process store topic m a p t).2 →
        ev.status ∈ emittedStatusSet)
    ∧ (∀ (cache : Cache) (store : Store) (now : Nat) (ev : StatusMessage),
        ev ∈ (monitor_sweep cache store now).events →
        ev.status ∈ emittedStatusSet)
    ∧ (∀ (cache : Cache) (msg : InStatusMsg) (t : Nat) (ev : StatusMessage),
        ev ∈ (process_status_update cache msg t).2.1 →
        ev.status ∈ emittedStatusSet)
    ∧ (∀ agent rid step : String,
        (log_processing_start agent rid step).status ∈ emittedStatusSet
        ∧ (log_processing_complete agent rid step).status ∈ emittedStatusSet)
    ∧ (∀ (store : Store) (agent rid msg : String) (t : Nat),
        ((handle_error store agent rid msg t).2).status ∈ emittedStatusSet)
    ∧ (∀ (cache : Cache) (msg : InStatusMsg) (t : Nat),
        (process_status_update cache msg t).2.2
          = (msg.request_id.isSome && isCompletionTrigger msg.status))
    ∧ (∀ s : String,
        isCompletionTrigger (some s) = true ↔ s = "completed" ∨ s = "failed") := by
  refine ⟨?_, ?_, ?_, ?_, ?_, ?_, ?_, ?_⟩
  · intro cache store rid bid oc t ev hev
    cases oc <;> simp [submit_bug_report] at hev
    subst hev
    exact (by decide : ("submitted" : String) ∈ emittedStatusSet)
  · intro store topic m a p t ev hev
    by_cases ht : topic = "bug-reports"
    · subst ht
      rcases m with ⟨orid, obid⟩
      cases orid <;> cases obid <;> cases a <;> cases p <;>
        simp [triage_process, handle_error, send_status_update] at hev <;>
        rcases hev with rfl | rfl <;> simp [emittedStatusSet]
    · simp [triage_process, ht] at hev
  · intro cache store now ev hev
    rcases foldTO_events_status (s := (⟨cache, store, []⟩ : SweepState)) hev
      with h | h
    · cases h
    · rw [h]
      decide
  · intro cache msg t ev hev
    rcases msg with ⟨orid, ost, oag, om, md⟩
    cases orid with
    | none => cases hev
    | some rid =>
        by_cases htr : isCompletionTrigger ost = true
        · have heq : (process_status_update cache
              { request_id := some rid, status := ost, agent := oag
                message := om, metadata := md } t).2.1
              = handle_request_completion
                  (process_status_update cache
                    { request_id := some rid, status := ost, agent := oag
                      message := om, metadata := md } t).1 rid ost
                  { request_id := some rid, status := ost, agent := oag
                    message := om, metadata := md } t := by
            simp only [process_status_update]
            rw [if_pos htr]
          rw [heq] at hev
          rw [handle_completion_events_status hev]
          decide
        · have heq : (process_status_update cache
              { request_id := some rid, status := ost, agent := oag
                message := om, metadata := md } t).2.1 = [] := by
            simp only [process_status_update]
            rw [if_neg htr]
          rw [heq] at hev
          cases hev
  · intro agent rid step
    exact ⟨(by decide : ("processing" : String) ∈ emittedStatusSet),
      (by decide : ("completed" : String) ∈ emittedStatusSet)⟩
  · intro store agent rid msg t
    exact (by decide : ("failed" : String) ∈ emittedStatusSet)
  · intro cache msg t
    rcases msg with ⟨orid, ost, oag, om, md⟩
    cases orid with
    | none => rfl
    | some rid =>
        by_cases htr : isCompletionTrigger ost = true
        · simp only [process_status_update]
          rw [if_pos htr]
          simp [htr]
        · simp only [process_status_update]
          rw [if_neg htr]
          simp only [Bool.not_eq_true] at htr
          simp [htr]
  · intro s
    simp [isCompletionTrigger]

/-- C8 witness: the "processing" event the triage stage emits at a concrete
message is in the actually-emitted status vocabulary. -/
theorem c8_status_vocabulary_amended_witness :
    (send_status_update "TriageAgent" "r1" "processing" "Starting bug triage").status
      ∈ emittedStatusSet :=
  c8_status_vocabulary_amended.2.1 [] "bug-reports"
    { request_id := some "r1", bug_report := some "BUG-001" } true true 0
    (send_status_update "TriageAgent" "r1" "processing" "Starting bug triage")
    (by decide)

end AIPipeline
